import Mathlib

/-!
# Trusted storage, settings backend (`storage_backend_settings.c`)

A shallow embedding of `subsys/trusted_storage/src/storage_backend_settings.c`.

* C strings are `List Char`, a pointer that may be `NULL` is an `Option`.
* `psa_storage_uid_t` (`uint64_t`) is a `Nat` below `2 ^ 64`; the casts to
  `unsigned int` are written `% 2 ^ 32`.
* `int` values (errno codes, the result of `snprintf`) are `Int`.
* The settings subsystem (`settings_load_subtree_direct`, `settings_save_one`,
  `settings_delete`) is not part of the sources: it is a parameter
  (`settings_backend`) and the store it manages is passed explicitly.
-/

namespace TrustedStorage

/-! ## Status codes and error numbers -/

/-- Modelled from the spec: the status taxonomy of `psa_status_t` (`psa/error.h` is not among
the sources). `PSA_ERROR_CORRUPTION_DETECTED` is the value the status variables of the source
are initialised with. -/
inductive psa_status_t where
  | PSA_SUCCESS
  | PSA_ERROR_INVALID_ARGUMENT
  | PSA_ERROR_DOES_NOT_EXIST
  | PSA_ERROR_DATA_CORRUPT
  | PSA_ERROR_STORAGE_FAILURE
  | PSA_ERROR_INSUFFICIENT_STORAGE
  | PSA_ERROR_CORRUPTION_DETECTED
  deriving DecidableEq

open psa_status_t

/-- Modelled from the spec: the backend's "not found" error number (`errno.h` is not among the
sources; the value is the one of Zephyr's `errno.h`). -/
def ENOENT : Int := 2

/-- Modelled from the spec: the "invalid argument" error number (value of Zephyr's `errno.h`). -/
def EINVAL : Int := 22

/-- Modelled from the spec: the backend's "no data" error number (value of Zephyr's `errno.h`). -/
def ENODATA : Int := 61

/-- Largest value of the C type `int` (32 bits). -/
def INT_MAX : Nat := 2147483647

/-- A byte of an object (`uint8_t`). -/
abbrev uint8_t := Fin 256

/-! ## Constants of the source -/

/-- UID as `uint64_t` in hexadecimal representation length: `sizeof(uint64_t) * 2`. -/
def TRUSTED_STORAGE_SETTINGS_BACKEND_FILENAME_UID_LENGTH : Nat := 8 * 2

/-- The format string of the storage key. -/
def TRUSTED_STORAGE_SETTINGS_BACKEND_FILENAME_PATTERN : List Char :=
  "%s%08x%08x%s".data

/-- Max filename length aligned on Settings File backend max length. -/
def TRUSTED_STORAGE_SETTINGS_BACKEND_FILENAME_MAX_LENGTH : Nat := 32

/-! ## `snprintf` with the conversions the pattern uses -/

/-- The lowercase hexadecimal digit of a value below 16 (the `x` conversion). -/
def hex_digit : Nat → Char
  | 0 => '0' | 1 => '1' | 2 => '2' | 3 => '3'
  | 4 => '4' | 5 => '5' | 6 => '6' | 7 => '7'
  | 8 => '8' | 9 => '9' | 10 => 'a' | 11 => 'b'
  | 12 => 'c' | 13 => 'd' | 14 => 'e' | _ => 'f'

/-- The `x` conversion of an `unsigned int` without padding: the digits of `v` in base 16,
most significant first, at least one digit. The conversion loop of a 32-bit value produces at
most 8 digits, which is the `fuel` the caller gives. -/
def hex_digits : Nat → Nat → List Char
  | 0, _ => []
  | fuel + 1, v =>
    if v < 16 then [hex_digit v] else hex_digits fuel (v / 16) ++ [hex_digit (v % 16)]

/-- The `%08x` conversion of an `unsigned int`: the hexadecimal digits, padded on the left with
`'0'` up to the minimum field width 8. -/
def fmt_08x (v : Nat) : List Char :=
  let ds := hex_digits 8 v
  List.replicate (8 - ds.length) '0' ++ ds

/-- An argument of the variadic `snprintf`. -/
inductive fmt_arg where
  | str (s : List Char)
  | uint (v : Nat)

/-- The text a format string expands to, for the conversions `%s` and `%08x`; every other
character of the format is copied. -/
def format_output : List Char → List fmt_arg → List Char
  | '%' :: 's' :: rest, fmt_arg.str s :: args => s ++ format_output rest args
  | '%' :: '0' :: '8' :: 'x' :: rest, fmt_arg.uint v :: args => fmt_08x v ++ format_output rest args
  | c :: rest, args => c :: format_output rest args
  | [], _ => []

/-- Modelled from the spec: `snprintf` of the C library (not among the sources), as the comment
in `create_filename` describes it. The result is the length the complete text has (negative when
it does not fit an `int`), and the buffer receives at most `n - 1` characters of it before the
terminating NUL. The second component is the string left in the buffer. -/
def snprintf (n : Nat) (format : List Char) (args : List fmt_arg) : Int × List Char :=
  let out := format_output format args
  (if out.length ≤ INT_MAX then (out.length : Int) else -1, out.take (n - 1))

/-! ## `create_filename` -/

/-- Helper to fill filename with a suffix. Returns the status and the string written to
`filename`. -/
def create_filename (filename_size : Nat) (pre : List Char) (uid : Nat) (suffix : List Char) :
    psa_status_t × List Char :=
  let r := snprintf filename_size TRUSTED_STORAGE_SETTINGS_BACKEND_FILENAME_PATTERN
    [fmt_arg.str pre, fmt_arg.uint ((uid >>> 32) % 2 ^ 32),
     fmt_arg.uint ((uid &&& 0xffffffff) % 2 ^ 32), fmt_arg.str suffix]
  if r.1 < 0 ∨ r.1 ≥ (filename_size : Int) then
    (PSA_ERROR_STORAGE_FAILURE, r.2)
  else
    (PSA_SUCCESS, r.2)

/-! ## The settings subsystem as a parameter -/

/-- The read callback `settings_read_cb` together with its `cb_arg`: called with the destination
buffer and the number of bytes asked for, it gives its `ssize_t` result (as stored in an `int`) and
the destination buffer after the call. -/
abbrev settings_read_cb := List uint8_t → Nat → Int × List uint8_t

/-- What `settings_load_subtree_direct` does for one subtree: it either returns `rc`, or invokes
the load callback with a key, the stored length and a read callback, and goes on according to the
value the callback returned. -/
inductive load_run where
  | ret (rc : Int) : load_run
  | invoke (key : List Char) (len : Nat) (read_cb : settings_read_cb)
      (next : Int → load_run) : load_run

/-- The settings subsystem over a store of type `σ`: the behaviour of
`settings_load_subtree_direct` on a subtree name, and `settings_save_one` and `settings_delete`
with their return value and the store they leave. -/
structure settings_backend (σ : Type) where
  load : σ → List Char → load_run
  save_one : σ → List Char → List uint8_t → Int × σ
  delete : σ → List Char → Int × σ

/-- The parameter of the load callback (`struct load_object_info`): `data` is the contents of the
buffer the pointer refers to. -/
structure load_object_info where
  data : List uint8_t
  size : Nat
  ret : Int

/-- Runs `settings_load_subtree_direct` with the callback `cb` and its parameter `param`; gives
the return value and the parameter after the call. -/
def settings_load_subtree_direct {α : Type}
    (cb : List Char → Nat → settings_read_cb → α → Int × α) : load_run → α → Int × α
  | load_run.ret rc, param => (rc, param)
  | load_run.invoke key len read_cb next, param =>
    let r := cb key len read_cb param
    settings_load_subtree_direct cb (next r.1) r.2

/-! ## The functions of the source -/

/-- Reads the object content; if the object is larger only the provided size is read, if it is
smaller the callback returns with an error. The returned value is also kept in the
`load_object_info`. -/
def storage_settings_load_object (_key : List Char) (len : Nat) (read_cb : settings_read_cb)
    (info : load_object_info) : Int × load_object_info :=
  let info' : load_object_info :=
    if len < info.size then
      { info with ret := -EINVAL }
    else
      let r := read_cb info.data info.size
      { info with data := r.2, ret := r.1 }
  (info'.ret, info')

/-- Maps an error number of the backend to a status. -/
def error_to_psa_error (errorno : Int) : psa_status_t :=
  if errorno = 0 then PSA_SUCCESS
  else if errorno = -ENOENT then PSA_ERROR_DOES_NOT_EXIST
  else if errorno = -ENODATA then PSA_ERROR_DATA_CORRUPT
  else PSA_ERROR_STORAGE_FAILURE

/-- Reads `object_size` bytes of the object into `object_data`. Gives the status and the contents
of the caller's buffer after the call. The argument check of the source (`object_size == 0 ||
object_data == NULL || prefix == NULL || suffix == NULL`) is the `match` on the three pointers
together with the test of `object_size`. -/
def storage_get_object {σ : Type} (B : settings_backend σ) (st : σ) (uid : Nat)
    (pre suffix : Option (List Char)) (object_data : Option (List uint8_t)) (object_size : Nat) :
    psa_status_t × Option (List uint8_t) :=
  match object_data, pre, suffix with
  | some data, some p, some s =>
    if object_size = 0 then (PSA_ERROR_INVALID_ARGUMENT, object_data)
    else
      let f := create_filename (TRUSTED_STORAGE_SETTINGS_BACKEND_FILENAME_MAX_LENGTH + 1) p uid s
      if f.1 ≠ PSA_SUCCESS then (f.1, object_data)
      else
        let info : load_object_info := { data := data, size := object_size, ret := -ENOENT }
        let r := settings_load_subtree_direct storage_settings_load_object (B.load st f.2) info
        if r.1 < 0 then (error_to_psa_error r.1, some r.2.data)
        else if r.2.ret < 0 then (error_to_psa_error r.2.ret, some r.2.data)
        else (PSA_SUCCESS, some r.2.data)
  | _, _, _ => (PSA_ERROR_INVALID_ARGUMENT, object_data)

/-- Writes the first `object_size` bytes of `object_data` under the key of the object. Gives the
status and the store after the call. The argument check is written as in `storage_get_object`. -/
def storage_set_object {σ : Type} (B : settings_backend σ) (st : σ) (uid : Nat)
    (pre suffix : Option (List Char)) (object_data : Option (List uint8_t)) (object_size : Nat) :
    psa_status_t × σ :=
  match object_data, pre, suffix with
  | some data, some p, some s =>
    if object_size = 0 then (PSA_ERROR_INVALID_ARGUMENT, st)
    else
      let f := create_filename (TRUSTED_STORAGE_SETTINGS_BACKEND_FILENAME_MAX_LENGTH + 1) p uid s
      if f.1 ≠ PSA_SUCCESS then (f.1, st)
      else
        let r := B.save_one st f.2 (data.take object_size)
        (error_to_psa_error r.1, r.2)
  | _, _, _ => (PSA_ERROR_INVALID_ARGUMENT, st)

/-- Deletes the record under the key of the object. Gives the status and the store after the
call. -/
def storage_remove_object {σ : Type} (B : settings_backend σ) (st : σ) (uid : Nat)
    (pre suffix : Option (List Char)) : psa_status_t × σ :=
  match pre, suffix with
  | some p, some s =>
    let f := create_filename (TRUSTED_STORAGE_SETTINGS_BACKEND_FILENAME_MAX_LENGTH + 1) p uid s
    if f.1 ≠ PSA_SUCCESS then (f.1, st)
    else
      let r := B.delete st f.2
      (error_to_psa_error r.1, r.2)
  | _, _ => (PSA_ERROR_INVALID_ARGUMENT, st)

/-! ## The key format in the words of the specification -/

/-- Eight hexadecimal digits of `v`, lowercase, zero padded: digit `i` (from the right) is
`v / 16 ^ i % 16`. -/
def hex8 (v : Nat) : List Char :=
  [7, 6, 5, 4, 3, 2, 1, 0].map fun i => hex_digit (v / 16 ^ i % 16)

/-- The backend key format in the words of the specification:
`<prefix><uid_high:8hex><uid_low:8hex><suffix>`. -/
def derived_key (pre : List Char) (uid : Nat) (suffix : List Char) : List Char :=
  pre ++ hex8 (uid >>> 32) ++ hex8 (uid &&& 0xffffffff) ++ suffix

/-- The `k` low hexadecimal digits of `v`, most significant first (used to relate `fmt_08x` and
`hex8`). -/
def hex_fixed : Nat → Nat → List Char
  | 0, _ => []
  | k + 1, v => hex_fixed k (v / 16) ++ [hex_digit (v % 16)]

/-! ## Backends for concrete calls -/

/-- Modelled from the spec: the read callback the settings subsystem hands out for a stored
value (`settings.h` is not among the sources): it copies the first `len` bytes of the value, or
all of it when it is shorter, to the start of the destination and reports how many. -/
def record_read_cb (value : List uint8_t) : settings_read_cb :=
  fun data len => ((min len value.length : Nat), value.take len ++ data.drop (min len value.length))

/-- A settings subsystem that answers every call with fixed values and keeps no store: the load
behaves as `run`, the write returns `save_rc` and the delete returns `delete_rc`. -/
def fixed_backend (run : load_run) (save_rc delete_rc : Int) : settings_backend Unit where
  load _ _ := run
  save_one _ _ _ := (save_rc, ())
  delete _ _ := (delete_rc, ())

/-- Modelled from the spec: the persistence substrate as a map from key to bytes (the settings
subsystem is not among the sources). A load presents the record stored under the name, if there
is one, to the callback once and returns 0; a write always succeeds and replaces the value of
that key in full; a delete reports `-ENOENT` for a key that holds no record. -/
def map_backend : settings_backend (List Char → Option (List uint8_t)) where
  load st name :=
    match st name with
    | none => load_run.ret 0
    | some value =>
      load_run.invoke [] value.length (record_read_cb value) (fun _ => load_run.ret 0)
  save_one st name value := (0, fun k => if k = name then some value else st k)
  delete st name :=
    match st name with
    | none => (-ENOENT, st)
    | some _ => (0, fun k => if k = name then none else st k)

/-! ## What a load did -/

/-- One invocation of `storage_settings_load_object`: the stored length it was given and, when it
called the read callback, the value the read callback returned. -/
structure load_event where
  len : Nat
  read : Option Int
  deriving DecidableEq

/-- The invocations of `storage_settings_load_object` during a load that starts with the
parameter `info`, in order. The read callback is called in the `else` branch of the source only,
that is when the stored length is not below `info.size`. -/
def load_events : load_run → load_object_info → List load_event
  | load_run.ret _, _ => []
  | load_run.invoke key len read_cb next, info =>
    let r := storage_settings_load_object key len read_cb info
    { len := len, read := if len < info.size then none else some (read_cb info.data info.size).1 }
      :: load_events (next r.1) r.2

/-- The value `info.ret` holds after a load, given the last invocation of the callback: the
value it had before when there was none, `-EINVAL` when the read callback was not called, and
the value the read callback returned otherwise. -/
def event_ret (init : Int) : Option load_event → Int
  | none => init
  | some e =>
    match e.read with
    | none => -EINVAL
    | some v => v

/-! ## Lemmas on the key format -/

theorem format_output_pattern (p s : List Char) (hi lo : Nat) :
    format_output TRUSTED_STORAGE_SETTINGS_BACKEND_FILENAME_PATTERN
      [fmt_arg.str p, fmt_arg.uint hi, fmt_arg.uint lo, fmt_arg.str s]
      = p ++ (fmt_08x hi ++ (fmt_08x lo ++ s)) := by
  simp [TRUSTED_STORAGE_SETTINGS_BACKEND_FILENAME_PATTERN, format_output]

theorem hex_fixed_zero (k : Nat) : hex_fixed k 0 = List.replicate k '0' := by
  induction k with
  | zero => rfl
  | succ k ih =>
    simp only [hex_fixed, Nat.zero_div, Nat.zero_mod, ih, hex_digit]
    exact (List.replicate_succ' k '0').symm

theorem hex_fixed_length (k v : Nat) : (hex_fixed k v).length = k := by
  induction k generalizing v with
  | zero => rfl
  | succ k ih => simp [hex_fixed, ih]

theorem hex_digits_length_le (fuel v : Nat) : (hex_digits fuel v).length ≤ fuel := by
  induction fuel generalizing v with
  | zero => simp [hex_digits]
  | succ fuel ih =>
    unfold hex_digits
    split_ifs
    · simp
    · have := ih (v / 16)
      simp only [List.length_append, List.length_singleton]
      omega

theorem hex_digits_pad (k : Nat) : ∀ fuel v : Nat, k + 1 ≤ fuel → v < 16 ^ (k + 1) →
    List.replicate (k + 1 - (hex_digits fuel v).length) '0' ++ hex_digits fuel v
      = hex_fixed (k + 1) v := by
  induction k with
  | zero =>
    intro fuel v hf hv
    obtain ⟨fuel, rfl⟩ : ∃ f, fuel = f + 1 := ⟨fuel - 1, by omega⟩
    have hv16 : v < 16 := by simpa using hv
    simp [hex_digits, hv16, hex_fixed, Nat.mod_eq_of_lt hv16]
  | succ k ih =>
    intro fuel v hf hv
    obtain ⟨fuel, rfl⟩ : ∃ f, fuel = f + 1 := ⟨fuel - 1, by omega⟩
    by_cases hv16 : v < 16
    · have h0 : v / 16 = 0 := Nat.div_eq_of_lt hv16
      have hfix : hex_fixed (k + 1 + 1) v = hex_fixed (k + 1) (v / 16) ++ [hex_digit (v % 16)] :=
        rfl
      rw [hfix, h0, hex_fixed_zero, Nat.mod_eq_of_lt hv16]
      simp [hex_digits, hv16]
    · have hdiv : v / 16 < 16 ^ (k + 1) := by
        rw [Nat.div_lt_iff_lt_mul (by norm_num)]
        calc v < 16 ^ (k + 1 + 1) := hv
          _ = 16 ^ (k + 1) * 16 := by ring
      have hrec := ih fuel (v / 16) (by omega) hdiv
      have hlen := hex_digits_length_le fuel (v / 16)
      have hfix : hex_fixed (k + 1 + 1) v = hex_fixed (k + 1) (v / 16) ++ [hex_digit (v % 16)] :=
        rfl
      rw [hfix, ← hrec]
      simp only [hex_digits, hv16, if_false, List.length_append, List.length_singleton,
        List.append_assoc]
      congr 2
      omega

theorem hex8_eq_hex_fixed (v : Nat) : hex8 v = hex_fixed 8 v := by
  simp [hex8, hex_fixed, Nat.div_div_eq_div_mul]

theorem fmt_08x_eq_hex8 (v : Nat) (hv : v < 2 ^ 32) : fmt_08x v = hex8 v := by
  rw [hex8_eq_hex_fixed]
  exact hex_digits_pad 7 8 v (by norm_num) (by norm_num; omega)

theorem hex8_length (v : Nat) : (hex8 v).length = 8 := by
  simp [hex8]

theorem hex8_mod (v : Nat) : hex8 (v % 2 ^ 32) = hex8 v := by
  simp only [hex8, List.map_cons, List.map_nil]
  have e : ∀ i, i < 8 → v % 2 ^ 32 / 16 ^ i % 16 = v / 16 ^ i % 16 := by
    intro i hi
    interval_cases i <;> omega
  rw [e 7 (by norm_num), e 6 (by norm_num), e 5 (by norm_num), e 4 (by norm_num),
    e 3 (by norm_num), e 2 (by norm_num), e 1 (by norm_num), e 0 (by norm_num)]

theorem derived_key_length (p s : List Char) (u : Nat) :
    (derived_key p u s).length = p.length + 16 + s.length := by
  simp [derived_key, hex8_length]
  omega

/-- The result of `create_filename` in closed form: it succeeds exactly when the complete key
fits an `int` and is shorter than the buffer, and the buffer holds the key cut to the buffer. -/
theorem create_filename_eq (n : Nat) (p s : List Char) (u : Nat) :
    create_filename n p u s =
      if (derived_key p u s).length ≤ INT_MAX ∧ (derived_key p u s).length < n then
        (PSA_SUCCESS, derived_key p u s)
      else (PSA_ERROR_STORAGE_FAILURE, (derived_key p u s).take (n - 1)) := by
  have hout : format_output TRUSTED_STORAGE_SETTINGS_BACKEND_FILENAME_PATTERN
      [fmt_arg.str p, fmt_arg.uint ((u >>> 32) % 2 ^ 32),
       fmt_arg.uint ((u &&& 0xffffffff) % 2 ^ 32), fmt_arg.str s] = derived_key p u s := by
    rw [format_output_pattern, fmt_08x_eq_hex8 _ (Nat.mod_lt _ (by norm_num)),
      fmt_08x_eq_hex8 _ (Nat.mod_lt _ (by norm_num)), hex8_mod, hex8_mod]
    simp [derived_key]
  unfold create_filename snprintf
  simp only [hout]
  by_cases h1 : (derived_key p u s).length ≤ INT_MAX
  · by_cases h2 : (derived_key p u s).length < n
    · have h3 : ¬ ((derived_key p u s).length : Int) ≥ (n : Int) := by omega
      have h4 : ¬ ((derived_key p u s).length : Int) < 0 := by omega
      have h5 : (derived_key p u s).length ≤ n - 1 := by omega
      simp [h1, h2, h3, h4, List.take_of_length_le h5]
    · have h3 : ((derived_key p u s).length : Int) ≥ (n : Int) := by omega
      simp [h1, h2, h3]
  · simp [h1]

theorem create_filename_fits (p s : List Char) (u : Nat) (h : p.length + 16 + s.length ≤ 32) :
    create_filename (TRUSTED_STORAGE_SETTINGS_BACKEND_FILENAME_MAX_LENGTH + 1) p u s
      = (PSA_SUCCESS, derived_key p u s) := by
  rw [create_filename_eq, if_pos]
  rw [derived_key_length]
  simp only [INT_MAX, TRUSTED_STORAGE_SETTINGS_BACKEND_FILENAME_MAX_LENGTH]
  omega

theorem create_filename_too_long (p s : List Char) (u : Nat) (h : 32 < p.length + 16 + s.length) :
    (create_filename (TRUSTED_STORAGE_SETTINGS_BACKEND_FILENAME_MAX_LENGTH + 1) p u s).1
      = PSA_ERROR_STORAGE_FAILURE := by
  rw [create_filename_eq, if_neg]
  rw [derived_key_length]
  simp only [TRUSTED_STORAGE_SETTINGS_BACKEND_FILENAME_MAX_LENGTH]
  omega

theorem hex_digit_inj : ∀ x < 16, ∀ y < 16, hex_digit x = hex_digit y → x = y := by
  decide

/-- Two values with the same eight hexadecimal digits agree modulo `2 ^ 32`. -/
theorem hex8_inj (a b : Nat) (h : hex8 a = hex8 b) : a % 2 ^ 32 = b % 2 ^ 32 := by
  simp only [hex8, List.map_cons, List.map_nil, List.cons.injEq, and_true] at h
  obtain ⟨h7, h6, h5, h4, h3, h2, h1, h0⟩ := h
  have d := fun i => hex_digit_inj (a / 16 ^ i % 16) (Nat.mod_lt _ (by norm_num))
    (b / 16 ^ i % 16) (Nat.mod_lt _ (by norm_num))
  have e7 := d 7 h7
  have e6 := d 6 h6
  have e5 := d 5 h5
  have e4 := d 4 h4
  have e3 := d 3 h3
  have e2 := d 2 h2
  have e1 := d 1 h1
  have e0 := d 0 h0
  norm_num at e7 e6 e5 e4 e3 e2 e1 e0 ⊢
  omega

theorem uid_high_low (u : Nat) :
    u >>> 32 = u / 2 ^ 32 ∧ u &&& 0xffffffff = u % 2 ^ 32 :=
  ⟨Nat.shiftRight_eq_div_pow u 32, Nat.and_pow_two_sub_one_eq_mod u 32⟩

/-- The derived key determines the 64-bit UID and the suffix once the prefix is known. -/
theorem derived_key_inj (p s s' : List Char) (u u' : Nat) (hu : u < 2 ^ 64) (hu' : u' < 2 ^ 64)
    (h : derived_key p u s = derived_key p u' s') : u = u' ∧ s = s' := by
  simp only [derived_key, List.append_assoc, List.append_cancel_left_eq] at h
  obtain ⟨hhi, h⟩ := List.append_inj h (by simp [hex8_length])
  obtain ⟨hlo, hs⟩ := List.append_inj h (by simp [hex8_length])
  have e1 := hex8_inj _ _ hhi
  have e2 := hex8_inj _ _ hlo
  rw [(uid_high_low u).1, (uid_high_low u').1] at e1
  rw [(uid_high_low u).2, (uid_high_low u').2] at e2
  refine ⟨?_, hs⟩
  omega

/-! ## Lemmas on the three operations -/

/-- Unfolds `storage_get_object` on present arguments, a non-zero size and a key that fits. -/
theorem storage_get_object_valid {σ : Type} (B : settings_backend σ) (st : σ) (u : Nat)
    (p s : List Char) (data : List uint8_t) (size : Nat) (hsize : size ≠ 0)
    (hfit : p.length + 16 + s.length ≤ 32) :
    storage_get_object B st u (some p) (some s) (some data) size =
      (let r := settings_load_subtree_direct storage_settings_load_object
          (B.load st (derived_key p u s)) { data := data, size := size, ret := -ENOENT }
       if r.1 < 0 then (error_to_psa_error r.1, some r.2.data)
       else if r.2.ret < 0 then (error_to_psa_error r.2.ret, some r.2.data)
       else (PSA_SUCCESS, some r.2.data)) := by
  simp [storage_get_object, hsize, create_filename_fits p s u hfit]

/-- Unfolds `storage_set_object` on present arguments, a non-zero size and a key that fits. -/
theorem storage_set_object_valid {σ : Type} (B : settings_backend σ) (st : σ) (u : Nat)
    (p s : List Char) (data : List uint8_t) (size : Nat) (hsize : size ≠ 0)
    (hfit : p.length + 16 + s.length ≤ 32) :
    storage_set_object B st u (some p) (some s) (some data) size =
      (error_to_psa_error (B.save_one st (derived_key p u s) (data.take size)).1,
        (B.save_one st (derived_key p u s) (data.take size)).2) := by
  simp [storage_set_object, hsize, create_filename_fits p s u hfit]

/-- Unfolds `storage_remove_object` on present arguments and a key that fits. -/
theorem storage_remove_object_valid {σ : Type} (B : settings_backend σ) (st : σ) (u : Nat)
    (p s : List Char) (hfit : p.length + 16 + s.length ≤ 32) :
    storage_remove_object B st u (some p) (some s) =
      (error_to_psa_error (B.delete st (derived_key p u s)).1,
        (B.delete st (derived_key p u s)).2) := by
  simp [storage_remove_object, create_filename_fits p s u hfit]

theorem error_to_psa_error_neg_EINVAL : error_to_psa_error (-EINVAL) = PSA_ERROR_STORAGE_FAILURE := by
  decide

/-- A valid `storage_get_object` whose load invokes the callback once, with a stored length below
the requested size, and returns a non-negative value: the status is `PSA_ERROR_STORAGE_FAILURE`
and the buffer is untouched. -/
theorem storage_get_object_short_record {σ : Type} (B : settings_backend σ) (st : σ) (u : Nat)
    (p s : List Char) (data : List uint8_t) (size : Nat) (k : List Char) (len : Nat)
    (read_cb : settings_read_cb) (rc : Int) (hsize : size ≠ 0)
    (hfit : p.length + 16 + s.length ≤ 32)
    (hload : B.load st (derived_key p u s)
      = load_run.invoke k len read_cb (fun _ => load_run.ret rc))
    (hrc : 0 ≤ rc) (hlen : len < size) :
    storage_get_object B st u (some p) (some s) (some data) size
      = (PSA_ERROR_STORAGE_FAILURE, some data) := by
  rw [storage_get_object_valid B st u p s data size hsize hfit, hload]
  have h1 : ¬ rc < 0 := by omega
  simp [settings_load_subtree_direct, storage_settings_load_object, hlen, h1, EINVAL,
    error_to_psa_error, ENOENT, ENODATA]

/-! ## C1: the key `create_filename` writes -/

/-- C1: for every 64-bit UID `u` and every prefix `p` and suffix `s` with
`len(p) + len(s) <= 16`, `create_filename` (on the 33-byte buffer of its callers) succeeds and
writes exactly `p ++ hex8(u >> 32) ++ hex8(u & 0xffffffff) ++ s`, `hex8` being the lowercase
hexadecimal rendering zero-padded to 8 digits; in particular UID `0x0102030405060708` with
prefix `ts_` and suffix `_d` gives `ts_0102030405060708_d`. -/
theorem create_filename_writes_key (u : Nat) (p s : List Char) (_hu : u < 2 ^ 64)
    (h : p.length + s.length ≤ 16) :
    create_filename (TRUSTED_STORAGE_SETTINGS_BACKEND_FILENAME_MAX_LENGTH + 1) p u s
        = (PSA_SUCCESS, p ++ hex8 (u >>> 32) ++ hex8 (u &&& 0xffffffff) ++ s)
      ∧ create_filename (TRUSTED_STORAGE_SETTINGS_BACKEND_FILENAME_MAX_LENGTH + 1)
          "ts_".data 0x0102030405060708 "_d".data
        = (PSA_SUCCESS, "ts_0102030405060708_d".data) := by
  refine ⟨?_, by decide⟩
  rw [create_filename_fits p s u (by omega)]
  rfl

/-- Witness of C1 at UID `0xdeadbeef`, prefix `its/` and suffix `.data`. -/
theorem create_filename_writes_key_witness :
    0xdeadbeef < 2 ^ 64 ∧ "its/".data.length + ".data".data.length ≤ 16
      ∧ create_filename (TRUSTED_STORAGE_SETTINGS_BACKEND_FILENAME_MAX_LENGTH + 1)
          "its/".data 0xdeadbeef ".data".data
        = (PSA_SUCCESS, "its/00000000deadbeef.data".data) :=
  ⟨by decide, by decide,
    (create_filename_writes_key 0xdeadbeef "its/".data ".data".data (by decide) (by decide)).1⟩

/-! ## C2: a key longer than the bound -/

/-- C2, as the code behaves: for every UID and every present prefix and suffix whose derived key
would exceed 32 characters, `storage_get_object`, `storage_set_object` and
`storage_remove_object`, called with otherwise valid arguments, each fail with
`PSA_ERROR_STORAGE_FAILURE`, whatever the backend. -/
theorem key_too_long_storage_failure {σ : Type} (B : settings_backend σ) (st : σ) (u : Nat)
    (p s : List Char) (data : List uint8_t) (size : Nat) (hsize : size ≠ 0)
    (hlong : 32 < p.length + 16 + s.length) :
    (storage_get_object B st u (some p) (some s) (some data) size).1 = PSA_ERROR_STORAGE_FAILURE
      ∧ (storage_set_object B st u (some p) (some s) (some data) size).1
          = PSA_ERROR_STORAGE_FAILURE
      ∧ (storage_remove_object B st u (some p) (some s)).1 = PSA_ERROR_STORAGE_FAILURE := by
  have h := create_filename_too_long p s u hlong
  simp [storage_get_object, storage_set_object, storage_remove_object, hsize, h]

/-- Witness of the amended C2: a 16-character prefix with a 9-character suffix. -/
theorem key_too_long_storage_failure_witness :
    (1 : Nat) ≠ 0 ∧ 32 < "trusted_storage/".data.length + 16 + "_metadata".data.length
      ∧ (storage_get_object (fixed_backend (load_run.ret 0) 0 0) () 7
          (some "trusted_storage/".data) (some "_metadata".data) (some [0]) 1).1
          = PSA_ERROR_STORAGE_FAILURE
      ∧ (storage_set_object (fixed_backend (load_run.ret 0) 0 0) () 7
          (some "trusted_storage/".data) (some "_metadata".data) (some [0]) 1).1
          = PSA_ERROR_STORAGE_FAILURE
      ∧ (storage_remove_object (fixed_backend (load_run.ret 0) 0 0) () 7
          (some "trusted_storage/".data) (some "_metadata".data)).1
          = PSA_ERROR_STORAGE_FAILURE :=
  ⟨by decide, by decide,
    key_too_long_storage_failure (fixed_backend (load_run.ret 0) 0 0) () 7
      "trusted_storage/".data "_metadata".data [0] 1 (by decide) (by decide)⟩

/-- Counterexample to C2 as stated: with the 17-character prefix `trusted_storage_a` and an
empty suffix the key would have 33 characters, the other arguments are valid, and none of the
three operations returns `PSA_ERROR_INVALID_ARGUMENT`. -/
theorem key_too_long_not_invalid_argument :
    32 < "trusted_storage_a".data.length + 16 + "".data.length
      ∧ (storage_get_object (fixed_backend (load_run.ret 0) 0 0) () 1
          (some "trusted_storage_a".data) (some "".data) (some [0, 0]) 2).1
          ≠ PSA_ERROR_INVALID_ARGUMENT
      ∧ (storage_set_object (fixed_backend (load_run.ret 0) 0 0) () 1
          (some "trusted_storage_a".data) (some "".data) (some [0, 0]) 2).1
          ≠ PSA_ERROR_INVALID_ARGUMENT
      ∧ (storage_remove_object (fixed_backend (load_run.ret 0) 0 0) () 1
          (some "trusted_storage_a".data) (some "".data)).1
          ≠ PSA_ERROR_INVALID_ARGUMENT := by
  decide

/-! ## C3: a record shorter than the requested size -/

/-- C3, the code at a failing input: the record under the key `ts_0102030405060708_d` has 2
bytes, 4 bytes are requested with valid arguments, the load itself returns 0, and
`storage_get_object` returns `PSA_ERROR_STORAGE_FAILURE` (not
`PSA_ERROR_INVALID_ARGUMENT`), leaving the buffer as it was. -/
theorem short_record_gives_storage_failure :
    storage_get_object
        (fixed_backend
          (load_run.invoke [] 2 (record_read_cb [1, 2]) (fun _ => load_run.ret 0)) 0 0) ()
        0x0102030405060708 (some "ts_".data) (some "_d".data) (some [0, 0, 0, 0]) 4
      = (PSA_ERROR_STORAGE_FAILURE, some [0, 0, 0, 0]) := by
  decide

/-! ## C4: a record at least as long as the requested size -/

/-- C4: for every valid call of `storage_get_object` where a record `value` exists at the derived
key (the load invokes the callback with its length and its read callback and returns without
error) and `object_size <= len(value)`, the call returns `PSA_SUCCESS` and the output buffer
holds the first `object_size` bytes of the record, the bytes after them unchanged. -/
theorem get_long_record_success {σ : Type} (B : settings_backend σ) (st : σ) (u : Nat)
    (p s : List Char) (data value : List uint8_t) (size : Nat) (k : List Char) (rc : Int)
    (hsize : size ≠ 0) (hfit : p.length + 16 + s.length ≤ 32)
    (hload : B.load st (derived_key p u s)
      = load_run.invoke k value.length (record_read_cb value) (fun _ => load_run.ret rc))
    (hrc : 0 ≤ rc) (hlen : size ≤ value.length) :
    storage_get_object B st u (some p) (some s) (some data) size
      = (PSA_SUCCESS, some (value.take size ++ data.drop size)) := by
  rw [storage_get_object_valid B st u p s data size hsize hfit, hload]
  have h1 : ¬ rc < 0 := by omega
  have h2 : ¬ value.length < size := by omega
  have h3 : min size value.length = size := by omega
  simp [settings_load_subtree_direct, storage_settings_load_object, h1, h2, record_read_cb, h3]

/-- Witness of C4: a 6-byte record read into a 5-byte buffer with `object_size = 4`. -/
theorem get_long_record_success_witness :
    storage_get_object
        (fixed_backend
          (load_run.invoke [] 6 (record_read_cb [10, 11, 12, 13, 14, 15])
            (fun _ => load_run.ret 0)) 0 0) ()
        0x0102030405060708 (some "ts_".data) (some "_d".data) (some [0, 0, 0, 0, 99]) 4
      = (PSA_SUCCESS, some [10, 11, 12, 13, 99]) :=
  get_long_record_success
    (fixed_backend
      (load_run.invoke [] 6 (record_read_cb [10, 11, 12, 13, 14, 15])
        (fun _ => load_run.ret 0)) 0 0) ()
    0x0102030405060708 "ts_".data "_d".data [0, 0, 0, 0, 99] [10, 11, 12, 13, 14, 15] 4 [] 0
    (by decide) (by decide) rfl (by decide) (by decide)

/-! ## C5: no record at the key -/

/-- C5: for every valid call of `storage_get_object` where no record exists at the derived key
(the load returns without error and never invokes the load callback), the call fails with
`PSA_ERROR_DOES_NOT_EXIST`. -/
theorem get_no_record_does_not_exist {σ : Type} (B : settings_backend σ) (st : σ) (u : Nat)
    (p s : List Char) (data : List uint8_t) (size : Nat) (rc : Int)
    (hsize : size ≠ 0) (hfit : p.length + 16 + s.length ≤ 32)
    (hload : B.load st (derived_key p u s) = load_run.ret rc) (hrc : 0 ≤ rc) :
    (storage_get_object B st u (some p) (some s) (some data) size).1
      = PSA_ERROR_DOES_NOT_EXIST := by
  rw [storage_get_object_valid B st u p s data size hsize hfit, hload]
  have h1 : ¬ rc < 0 := by omega
  simp [settings_load_subtree_direct, h1, ENOENT, error_to_psa_error]

/-- Witness of C5: a backend whose load returns 0 without invoking the callback. -/
theorem get_no_record_does_not_exist_witness :
    (storage_get_object (fixed_backend (load_run.ret 0) 0 0) () 0x0102030405060708
        (some "ts_".data) (some "_d".data) (some [0, 0]) 2).1
      = PSA_ERROR_DOES_NOT_EXIST :=
  get_no_record_does_not_exist (fixed_backend (load_run.ret 0) 0 0) () 0x0102030405060708
    "ts_".data "_d".data [0, 0] 2 0 (by decide) (by decide) rfl (by decide)

/-! ## C6: the mapping of backend error numbers -/

/-- C6: `error_to_psa_error` maps 0 to `PSA_SUCCESS`, `-ENOENT` to `PSA_ERROR_DOES_NOT_EXIST`,
`-ENODATA` to `PSA_ERROR_DATA_CORRUPT` and every other integer to `PSA_ERROR_STORAGE_FAILURE`;
and a valid `storage_get_object` returns `PSA_ERROR_DATA_CORRUPT` when the backend load returns
`-ENODATA` and `PSA_ERROR_STORAGE_FAILURE` when it returns an error other than `-ENOENT` and
`-ENODATA`. -/
theorem error_mapping_total {σ : Type} (B : settings_backend σ) (st : σ) (u : Nat)
    (p s : List Char) (data : List uint8_t) (size : Nat) (hsize : size ≠ 0)
    (hfit : p.length + 16 + s.length ≤ 32) :
    error_to_psa_error 0 = PSA_SUCCESS
      ∧ error_to_psa_error (-ENOENT) = PSA_ERROR_DOES_NOT_EXIST
      ∧ error_to_psa_error (-ENODATA) = PSA_ERROR_DATA_CORRUPT
      ∧ (∀ e : Int, e ≠ 0 → e ≠ -ENOENT → e ≠ -ENODATA →
          error_to_psa_error e = PSA_ERROR_STORAGE_FAILURE)
      ∧ ((settings_load_subtree_direct storage_settings_load_object
            (B.load st (derived_key p u s))
            { data := data, size := size, ret := -ENOENT }).1 = -ENODATA →
          (storage_get_object B st u (some p) (some s) (some data) size).1
            = PSA_ERROR_DATA_CORRUPT)
      ∧ (∀ rc : Int, (settings_load_subtree_direct storage_settings_load_object
            (B.load st (derived_key p u s))
            { data := data, size := size, ret := -ENOENT }).1 = rc →
          rc < 0 → rc ≠ -ENOENT → rc ≠ -ENODATA →
          (storage_get_object B st u (some p) (some s) (some data) size).1
            = PSA_ERROR_STORAGE_FAILURE) := by
  have key : ∀ rc : Int, (settings_load_subtree_direct storage_settings_load_object
      (B.load st (derived_key p u s)) { data := data, size := size, ret := -ENOENT }).1 = rc →
      rc < 0 → (storage_get_object B st u (some p) (some s) (some data) size).1
        = error_to_psa_error rc := by
    intro rc h hneg
    rw [storage_get_object_valid B st u p s data size hsize hfit]
    simp only [h, hneg, if_true]
  have other : ∀ e : Int, e ≠ 0 → e ≠ -ENOENT → e ≠ -ENODATA →
      error_to_psa_error e = PSA_ERROR_STORAGE_FAILURE := by
    intro e h0 h1 h2
    simp [error_to_psa_error, h0, h1, h2]
  refine ⟨by decide, by decide, by decide, other, ?_, ?_⟩
  · intro h
    rw [key _ h (by decide)]
    decide
  · intro rc h hneg h1 h2
    rw [key rc h hneg]
    exact other rc (by omega) h1 h2

/-- Witness of C6: a load that returns `-ENODATA`, and one that returns `-5`. -/
theorem error_mapping_total_witness :
    (storage_get_object (fixed_backend (load_run.ret (-ENODATA)) 0 0) () 9
        (some "ts_".data) (some "_d".data) (some [0, 0]) 2).1 = PSA_ERROR_DATA_CORRUPT
      ∧ (storage_get_object (fixed_backend (load_run.ret (-5)) 0 0) () 9
        (some "ts_".data) (some "_d".data) (some [0, 0]) 2).1 = PSA_ERROR_STORAGE_FAILURE :=
  ⟨(error_mapping_total (fixed_backend (load_run.ret (-ENODATA)) 0 0) () 9
      "ts_".data "_d".data [0, 0] 2 (by decide) (by decide)).2.2.2.2.1 rfl,
   (error_mapping_total (fixed_backend (load_run.ret (-5)) 0 0) () 9
      "ts_".data "_d".data [0, 0] 2 (by decide) (by decide)).2.2.2.2.2 (-5) rfl
      (by decide) (by decide) (by decide)⟩

/-! ## C7: argument validation -/

/-- C7: `storage_set_object` and `storage_get_object` return `PSA_ERROR_INVALID_ARGUMENT`
whenever `object_size` is 0 or the data buffer, prefix or suffix is absent, and
`storage_remove_object` returns it whenever prefix or suffix is absent, for every UID, backend,
store and key length. -/
theorem invalid_arguments_rejected {σ : Type} (B : settings_backend σ) (st : σ) (u : Nat)
    (pre suffix : Option (List Char)) (data : Option (List uint8_t)) (size : Nat) :
    ((size = 0 ∨ data = none ∨ pre = none ∨ suffix = none) →
        (storage_get_object B st u pre suffix data size).1 = PSA_ERROR_INVALID_ARGUMENT
          ∧ (storage_set_object B st u pre suffix data size).1 = PSA_ERROR_INVALID_ARGUMENT)
      ∧ ((pre = none ∨ suffix = none) →
        (storage_remove_object B st u pre suffix).1 = PSA_ERROR_INVALID_ARGUMENT) := by
  constructor
  · intro h
    cases data <;> cases pre <;> cases suffix <;>
      simp_all [storage_get_object, storage_set_object]
  · intro h
    cases pre <;> cases suffix <;> simp_all [storage_remove_object]

/-- Witness of C7: a zero size with a key that would be too long, and an absent suffix. -/
theorem invalid_arguments_rejected_witness :
    ((storage_get_object (fixed_backend (load_run.ret 0) 0 0) () 3
          (some "trusted_storage_a".data) (some "_d".data) (some [1]) 0).1
          = PSA_ERROR_INVALID_ARGUMENT
        ∧ (storage_set_object (fixed_backend (load_run.ret 0) 0 0) () 3
          (some "trusted_storage_a".data) (some "_d".data) (some [1]) 0).1
          = PSA_ERROR_INVALID_ARGUMENT)
      ∧ (storage_remove_object (fixed_backend (load_run.ret 0) 0 0) () 3
          (some "ts_".data) none).1 = PSA_ERROR_INVALID_ARGUMENT :=
  ⟨(invalid_arguments_rejected (fixed_backend (load_run.ret 0) 0 0) () 3
      (some "trusted_storage_a".data) (some "_d".data) (some [1]) 0).1 (Or.inl rfl),
   (invalid_arguments_rejected (fixed_backend (load_run.ret 0) 0 0) () 3
      (some "ts_".data) none (some [1]) 1).2 (Or.inr rfl)⟩

/-! ## C8: the status of a write -/

/-- C8, as the code behaves: for every valid call of `storage_set_object`, with `rc` the value
the backend write returns: the status is `PSA_SUCCESS` exactly when `rc = 0`,
`PSA_ERROR_DOES_NOT_EXIST` when `rc = -ENOENT`, `PSA_ERROR_DATA_CORRUPT` when `rc = -ENODATA`,
and `PSA_ERROR_STORAGE_FAILURE` for every other non-zero `rc`. -/
theorem set_status_of_write {σ : Type} (B : settings_backend σ) (st : σ) (u : Nat)
    (p s : List Char) (data : List uint8_t) (size : Nat) (rc : Int) (hsize : size ≠ 0)
    (hfit : p.length + 16 + s.length ≤ 32)
    (hrc : (B.save_one st (derived_key p u s) (data.take size)).1 = rc) :
    ((storage_set_object B st u (some p) (some s) (some data) size).1 = PSA_SUCCESS ↔ rc = 0)
      ∧ (rc = -ENOENT →
          (storage_set_object B st u (some p) (some s) (some data) size).1
            = PSA_ERROR_DOES_NOT_EXIST)
      ∧ (rc = -ENODATA →
          (storage_set_object B st u (some p) (some s) (some data) size).1
            = PSA_ERROR_DATA_CORRUPT)
      ∧ (rc ≠ 0 → rc ≠ -ENOENT → rc ≠ -ENODATA →
          (storage_set_object B st u (some p) (some s) (some data) size).1
            = PSA_ERROR_STORAGE_FAILURE) := by
  rw [storage_set_object_valid B st u p s data size hsize hfit, hrc]
  refine ⟨?_, ?_, ?_, ?_⟩
  · simp only [error_to_psa_error]
    split_ifs with h0 h1 h2 <;> simp [h0]
  · rintro rfl
    simp [error_to_psa_error, ENOENT, ENODATA]
  · rintro rfl
    simp [error_to_psa_error, ENOENT, ENODATA]
  · intro h0 h1 h2
    simp [error_to_psa_error, h0, h1, h2]

/-- Witness of the amended C8: a write that fails with `-28` (out of space), and one that
returns 0. -/
theorem set_status_of_write_witness :
    (storage_set_object (fixed_backend (load_run.ret 0) (-28) 0) () 5
        (some "ts_".data) (some "_d".data) (some [1, 2, 3]) 3).1 = PSA_ERROR_STORAGE_FAILURE
      ∧ ((storage_set_object (fixed_backend (load_run.ret 0) 0 0) () 5
        (some "ts_".data) (some "_d".data) (some [1, 2, 3]) 3).1 = PSA_SUCCESS ↔ (0 : Int) = 0) :=
  ⟨(set_status_of_write (fixed_backend (load_run.ret 0) (-28) 0) () 5
      "ts_".data "_d".data [1, 2, 3] 3 (-28) (by decide) (by decide) rfl).2.2.2
      (by decide) (by decide) (by decide),
   (set_status_of_write (fixed_backend (load_run.ret 0) 0 0) () 5
      "ts_".data "_d".data [1, 2, 3] 3 0 (by decide) (by decide) rfl).1⟩

/-- Counterexample to C8 as stated: the call is valid and the backend write returns the non-zero
error `-ENOENT`, and `storage_set_object` returns `PSA_ERROR_DOES_NOT_EXIST`, not
`PSA_ERROR_STORAGE_FAILURE`. -/
theorem set_write_error_not_storage_failure :
    -ENOENT ≠ 0
      ∧ storage_set_object (fixed_backend (load_run.ret 0) (-ENOENT) 0) () 5
          (some "ts_".data) (some "_d".data) (some [1, 2, 3]) 3
        = (PSA_ERROR_DOES_NOT_EXIST, ())
      ∧ PSA_ERROR_DOES_NOT_EXIST ≠ PSA_ERROR_STORAGE_FAILURE := by
  decide

/-! ## C9: the status of a delete -/

/-- C9, as the code behaves: for every valid call of `storage_remove_object`, with `rc` the value
the backend delete returns: the status is `PSA_SUCCESS` when `rc = 0`,
`PSA_ERROR_DOES_NOT_EXIST` when `rc = -ENOENT`, `PSA_ERROR_DATA_CORRUPT` when `rc = -ENODATA`,
and `PSA_ERROR_STORAGE_FAILURE` for every other `rc`. -/
theorem remove_status_of_delete {σ : Type} (B : settings_backend σ) (st : σ) (u : Nat)
    (p s : List Char) (rc : Int) (hfit : p.length + 16 + s.length ≤ 32)
    (hrc : (B.delete st (derived_key p u s)).1 = rc) :
    (rc = 0 → (storage_remove_object B st u (some p) (some s)).1 = PSA_SUCCESS)
      ∧ (rc = -ENOENT →
          (storage_remove_object B st u (some p) (some s)).1 = PSA_ERROR_DOES_NOT_EXIST)
      ∧ (rc = -ENODATA →
          (storage_remove_object B st u (some p) (some s)).1 = PSA_ERROR_DATA_CORRUPT)
      ∧ (rc ≠ 0 → rc ≠ -ENOENT → rc ≠ -ENODATA →
          (storage_remove_object B st u (some p) (some s)).1 = PSA_ERROR_STORAGE_FAILURE) := by
  rw [storage_remove_object_valid B st u p s hfit, hrc]
  refine ⟨?_, ?_, ?_, ?_⟩
  · rintro rfl
    simp [error_to_psa_error, ENOENT, ENODATA]
  · rintro rfl
    simp [error_to_psa_error, ENOENT, ENODATA]
  · rintro rfl
    simp [error_to_psa_error, ENOENT, ENODATA]
  · intro h0 h1 h2
    simp [error_to_psa_error, h0, h1, h2]

/-- Witness of the amended C9: a delete that reports the record absent, and one that fails
with `-5`. -/
theorem remove_status_of_delete_witness :
    (storage_remove_object (fixed_backend (load_run.ret 0) 0 (-ENOENT)) () 5
        (some "ts_".data) (some "_d".data)).1 = PSA_ERROR_DOES_NOT_EXIST
      ∧ (storage_remove_object (fixed_backend (load_run.ret 0) 0 (-5)) () 5
        (some "ts_".data) (some "_d".data)).1 = PSA_ERROR_STORAGE_FAILURE :=
  ⟨(remove_status_of_delete (fixed_backend (load_run.ret 0) 0 (-ENOENT)) () 5
      "ts_".data "_d".data (-ENOENT) (by decide) rfl).2.1 rfl,
   (remove_status_of_delete (fixed_backend (load_run.ret 0) 0 (-5)) () 5
      "ts_".data "_d".data (-5) (by decide) rfl).2.2.2 (by decide) (by decide) (by decide)⟩

/-- Counterexample to C9 as stated: the call is valid and the backend delete fails with
`-ENODATA`, an error other than `-ENOENT`, and `storage_remove_object` returns
`PSA_ERROR_DATA_CORRUPT`, not `PSA_ERROR_STORAGE_FAILURE`. -/
theorem remove_delete_error_not_storage_failure :
    -ENODATA ≠ 0 ∧ -ENODATA ≠ -ENOENT
      ∧ storage_remove_object (fixed_backend (load_run.ret 0) 0 (-ENODATA)) () 5
          (some "ts_".data) (some "_d".data)
        = (PSA_ERROR_DATA_CORRUPT, ())
      ∧ PSA_ERROR_DATA_CORRUPT ≠ PSA_ERROR_STORAGE_FAILURE := by
  decide

/-! ## C10: injectivity of the key for a fixed prefix -/

/-- C10: for every prefix `p`, 64-bit UIDs `u`, `u'` and suffixes `s`, `s'` for which
`create_filename` succeeds (on a buffer of any size), if the key written for `(p, u, s)` equals
the key written for `(p, u', s')` then `u = u'` and `s = s'`. -/
theorem key_injective_fixed_prefix (n : Nat) (p s s' : List Char) (u u' : Nat)
    (hu : u < 2 ^ 64) (hu' : u' < 2 ^ 64)
    (hok : (create_filename n p u s).1 = PSA_SUCCESS)
    (hok' : (create_filename n p u' s').1 = PSA_SUCCESS)
    (hkey : (create_filename n p u s).2 = (create_filename n p u' s').2) :
    u = u' ∧ s = s' := by
  rw [create_filename_eq] at hok hkey
  rw [create_filename_eq] at hok' hkey
  split_ifs at hok hok' hkey with h1 h2
  exact derived_key_inj p s s' u u' hu hu' hkey

/-- Witness of C10: the key of UID `0x1122334455667788` under prefix `ts_` and suffix `_d`. -/
theorem key_injective_fixed_prefix_witness :
    (create_filename 33 "ts_".data 0x1122334455667788 "_d".data).1 = PSA_SUCCESS
      ∧ (create_filename 33 "ts_".data 0x1122334455667788 "_d".data).2
          = "ts_1122334455667788_d".data
      ∧ (0x1122334455667788 = 0x1122334455667788 ∧ "_d".data = "_d".data) :=
  ⟨by decide, by decide,
    key_injective_fixed_prefix 33 "ts_".data "_d".data "_d".data
      0x1122334455667788 0x1122334455667788 (by decide) (by decide) (by decide) (by decide) rfl⟩

/-! ## Lemmas on the load -/

theorem storage_settings_load_object_size (k : List Char) (len : Nat) (read_cb : settings_read_cb)
    (info : load_object_info) :
    (storage_settings_load_object k len read_cb info).2.size = info.size := by
  unfold storage_settings_load_object
  split_ifs <;> rfl

theorem storage_settings_load_object_ret (k : List Char) (len : Nat) (read_cb : settings_read_cb)
    (info : load_object_info) :
    (storage_settings_load_object k len read_cb info).2.ret
      = if len < info.size then -EINVAL else (read_cb info.data info.size).1 := by
  unfold storage_settings_load_object
  split_ifs <;> rfl

/-- The callback never changes `info.size`. -/
theorem load_keeps_size (run : load_run) : ∀ info : load_object_info,
    (settings_load_subtree_direct storage_settings_load_object run info).2.size = info.size := by
  induction run with
  | ret rc => intro info; rfl
  | invoke k len read_cb next ih =>
    intro info
    simp only [settings_load_subtree_direct]
    rw [ih, storage_settings_load_object_size]

/-- After a load `info.ret` is what the last invocation of the callback recorded. -/
theorem load_ret_eq_event_ret (run : load_run) : ∀ info : load_object_info,
    (settings_load_subtree_direct storage_settings_load_object run info).2.ret
      = event_ret info.ret (load_events run info).getLast? := by
  induction run with
  | ret rc => intro info; rfl
  | invoke k len read_cb next ih =>
    intro info
    simp only [settings_load_subtree_direct, load_events]
    rw [ih, List.getLast?_cons, storage_settings_load_object_ret]
    cases (load_events (next (storage_settings_load_object k len read_cb info).1)
      (storage_settings_load_object k len read_cb info).2).getLast? with
    | none =>
      simp only [Option.getD_none, event_ret]
      split_ifs <;> rfl
    | some e => rfl

/-- An invocation called the read callback exactly when the stored length was not below the
requested size. -/
theorem load_events_read (run : load_run) : ∀ info : load_object_info,
    ∀ e ∈ load_events run info, (e.read = none ↔ e.len < info.size) := by
  induction run with
  | ret rc => intro info e he; simp [load_events] at he
  | invoke k len read_cb next ih =>
    intro info e he
    simp only [load_events, List.mem_cons] at he
    rcases he with rfl | he
    · by_cases h : len < info.size <;> simp [h]
    · have := ih _ _ e he
      rwa [storage_settings_load_object_size] at this


/-! ## C11: a rejected call does not reach the backend -/

/-- C11: whenever `storage_get_object`, `storage_set_object` or `storage_remove_object` rejects a
call because of an invalid argument or because the derived key would exceed 32 characters, no
backend operation takes place: the call does not return `PSA_SUCCESS`, the store is the one
before the call, the output buffer of `storage_get_object` is unchanged, and the result is the
same with every other backend and store. -/
theorem rejected_call_leaves_backend {σ : Type} (B : settings_backend σ) (st : σ) (u : Nat)
    (pre suffix : Option (List Char)) (data : Option (List uint8_t)) (size : Nat) :
    ((size = 0 ∨ data = none ∨ pre = none ∨ suffix = none
          ∨ (∃ p s, pre = some p ∧ suffix = some s ∧ 32 < p.length + 16 + s.length)) →
        (storage_get_object B st u pre suffix data size).1 ≠ PSA_SUCCESS
          ∧ (storage_get_object B st u pre suffix data size).2 = data
          ∧ (storage_set_object B st u pre suffix data size).1 ≠ PSA_SUCCESS
          ∧ (storage_set_object B st u pre suffix data size).2 = st
          ∧ ∀ (τ : Type) (B' : settings_backend τ) (st' : τ),
              storage_get_object B' st' u pre suffix data size
                = storage_get_object B st u pre suffix data size
              ∧ (storage_set_object B' st' u pre suffix data size).1
                = (storage_set_object B st u pre suffix data size).1)
      ∧ ((pre = none ∨ suffix = none
          ∨ (∃ p s, pre = some p ∧ suffix = some s ∧ 32 < p.length + 16 + s.length)) →
        (storage_remove_object B st u pre suffix).1 ≠ PSA_SUCCESS
          ∧ (storage_remove_object B st u pre suffix).2 = st
          ∧ ∀ (τ : Type) (B' : settings_backend τ) (st' : τ),
              (storage_remove_object B' st' u pre suffix).1
                = (storage_remove_object B st u pre suffix).1) := by
  constructor
  · intro h
    cases data <;> cases pre <;> cases suffix <;>
      simp only [storage_get_object, storage_set_object, ne_eq, reduceCtorEq, not_false_eq_true,
        implies_true, and_self]
    rename_i d p s
    by_cases hsize : size = 0
    · simp [hsize]
    · have hlong : 32 < p.length + 16 + s.length := by
        rcases h with h | h | h | h | ⟨p', s', hp, hs, hl⟩
        · exact absurd h hsize
        · simp at h
        · simp at h
        · simp at h
        · cases hp; cases hs; exact hl
      have hf := create_filename_too_long p s u hlong
      simp [hsize, hf]
  · intro h
    cases pre <;> cases suffix <;>
      simp only [storage_remove_object, ne_eq, reduceCtorEq, not_false_eq_true,
        implies_true, and_self]
    rename_i p s
    have hlong : 32 < p.length + 16 + s.length := by
      rcases h with h | h | ⟨p', s', hp, hs, hl⟩
      · simp at h
      · simp at h
      · cases hp; cases hs; exact hl
    have hf := create_filename_too_long p s u hlong
    simp [hf]

/-- Witness of C11: a key of 33 characters, on a store that holds a record under every key. -/
theorem rejected_call_leaves_backend_witness :
    ((storage_get_object map_backend (fun _ => some [5, 6]) 1
          (some "trusted_storage_a".data) (some "".data) (some [0, 0]) 2).1 ≠ PSA_SUCCESS
        ∧ (storage_get_object map_backend (fun _ => some [5, 6]) 1
          (some "trusted_storage_a".data) (some "".data) (some [0, 0]) 2).2 = some [0, 0]
        ∧ (storage_set_object map_backend (fun _ => some [5, 6]) 1
          (some "trusted_storage_a".data) (some "".data) (some [0, 0]) 2).1 ≠ PSA_SUCCESS
        ∧ (storage_set_object map_backend (fun _ => some [5, 6]) 1
          (some "trusted_storage_a".data) (some "".data) (some [0, 0]) 2).2
            = (fun _ => some [5, 6])
        ∧ ∀ (τ : Type) (B' : settings_backend τ) (st' : τ),
            storage_get_object B' st' 1
                (some "trusted_storage_a".data) (some "".data) (some [0, 0]) 2
              = storage_get_object map_backend (fun _ => some [5, 6]) 1
                (some "trusted_storage_a".data) (some "".data) (some [0, 0]) 2
            ∧ (storage_set_object B' st' 1
                (some "trusted_storage_a".data) (some "".data) (some [0, 0]) 2).1
              = (storage_set_object map_backend (fun _ => some [5, 6]) 1
                (some "trusted_storage_a".data) (some "".data) (some [0, 0]) 2).1)
      ∧ ((storage_remove_object map_backend (fun _ => some [5, 6]) 1
          (some "ts_".data) none).1 ≠ PSA_SUCCESS
        ∧ (storage_remove_object map_backend (fun _ => some [5, 6]) 1
          (some "ts_".data) none).2 = (fun _ => some [5, 6])
        ∧ ∀ (τ : Type) (B' : settings_backend τ) (st' : τ),
            (storage_remove_object B' st' 1 (some "ts_".data) none).1
              = (storage_remove_object map_backend (fun _ => some [5, 6]) 1
                (some "ts_".data) none).1) :=
  ⟨(rejected_call_leaves_backend map_backend (fun _ => some [5, 6]) 1
      (some "trusted_storage_a".data) (some "".data) (some [0, 0]) 2).1
      (Or.inr (Or.inr (Or.inr (Or.inr
        ⟨"trusted_storage_a".data, "".data, rfl, rfl, by decide⟩)))),
   (rejected_call_leaves_backend map_backend (fun _ => some [5, 6]) 1
      (some "ts_".data) none (some [0, 0]) 2).2 (Or.inr (Or.inl rfl))⟩


/-! ## C12: the stored size is checked before anything is copied -/

/-- C12: for every call of `storage_get_object` in which the record at the derived key is shorter
than the requested `object_size`, the backend read callback is never invoked (the one invocation
of the load callback records no read, and the result is the same whatever the read callback is)
and the caller's output buffer is left unchanged. -/
theorem short_record_read_cb_not_invoked {σ : Type} (B : settings_backend σ) (st : σ) (u : Nat)
    (p s : List Char) (data : List uint8_t) (size : Nat) (k : List Char) (len : Nat)
    (read_cb : settings_read_cb) (rc : Int)
    (hload : B.load st (derived_key p u s)
      = load_run.invoke k len read_cb (fun _ => load_run.ret rc))
    (hlen : len < size) :
    (storage_get_object B st u (some p) (some s) (some data) size).2 = some data
      ∧ load_events (B.load st (derived_key p u s)) { data := data, size := size, ret := -ENOENT }
          = [{ len := len, read := none }]
      ∧ ∀ (τ : Type) (B' : settings_backend τ) (st' : τ) (read_cb' : settings_read_cb),
          B'.load st' (derived_key p u s)
              = load_run.invoke k len read_cb' (fun _ => load_run.ret rc) →
            storage_get_object B' st' u (some p) (some s) (some data) size
              = storage_get_object B st u (some p) (some s) (some data) size := by
  have hsize : size ≠ 0 := by omega
  have hget : ∀ (τ : Type) (B' : settings_backend τ) (st' : τ) (read_cb' : settings_read_cb),
      B'.load st' (derived_key p u s)
          = load_run.invoke k len read_cb' (fun _ => load_run.ret rc) →
        storage_get_object B' st' u (some p) (some s) (some data) size
          = if 32 < p.length + 16 + s.length then (PSA_ERROR_STORAGE_FAILURE, some data)
            else if rc < 0 then (error_to_psa_error rc, some data)
            else (PSA_ERROR_STORAGE_FAILURE, some data) := by
    intro τ B' st' read_cb' hload'
    by_cases hlong : 32 < p.length + 16 + s.length
    · have hf := create_filename_too_long p s u hlong
      simp [storage_get_object, hsize, hf, hlong]
    · rw [storage_get_object_valid B' st' u p s data size hsize (by omega), hload']
      by_cases hrc : rc < 0
      · simp [settings_load_subtree_direct, storage_settings_load_object, hlen, hrc, hlong]
      · simp [settings_load_subtree_direct, storage_settings_load_object, hlen, hrc, hlong,
          EINVAL, error_to_psa_error, ENOENT, ENODATA]
  refine ⟨?_, ?_, ?_⟩
  · rw [hget σ B st read_cb hload]
    split_ifs <;> rfl
  · rw [hload]
    simp [load_events, hlen]
  · intro τ B' st' read_cb' hload'
    rw [hget τ B' st' read_cb' hload', hget σ B st read_cb hload]

/-- Witness of C12: a 2-byte record, 4 bytes requested, with a read callback that would
overwrite the buffer if it were called. -/
theorem short_record_read_cb_not_invoked_witness :
    (storage_get_object
        (fixed_backend (load_run.invoke [] 2 (fun _ _ => (4, [9, 9, 9, 9]))
          (fun _ => load_run.ret 0)) 0 0) ()
        0x0102030405060708 (some "ts_".data) (some "_d".data) (some [0, 0, 0, 0]) 4).2
      = some [0, 0, 0, 0] :=
  (short_record_read_cb_not_invoked
    (fixed_backend (load_run.invoke [] 2 (fun _ _ => (4, [9, 9, 9, 9]))
      (fun _ => load_run.ret 0)) 0 0) ()
    0x0102030405060708 "ts_".data "_d".data [0, 0, 0, 0] 4 [] 2 (fun _ _ => (4, [9, 9, 9, 9])) 0
    rfl (by decide)).1

/-! ## C13: the length of the key -/

/-- C13: `create_filename` with a 33-byte buffer succeeds if and only if
`len(prefix) + 16 + len(suffix) <= 32`, and whenever it succeeds the written key has length
exactly `len(prefix) + 16 + len(suffix)`, hence at most 32 characters. -/
theorem create_filename_succeeds_iff (p s : List Char) (u : Nat) :
    ((create_filename (TRUSTED_STORAGE_SETTINGS_BACKEND_FILENAME_MAX_LENGTH + 1) p u s).1
          = PSA_SUCCESS ↔ p.length + 16 + s.length ≤ 32)
      ∧ ((create_filename (TRUSTED_STORAGE_SETTINGS_BACKEND_FILENAME_MAX_LENGTH + 1) p u s).1
          = PSA_SUCCESS →
        (create_filename (TRUSTED_STORAGE_SETTINGS_BACKEND_FILENAME_MAX_LENGTH + 1) p u s).2.length
            = p.length + 16 + s.length
          ∧ (create_filename
              (TRUSTED_STORAGE_SETTINGS_BACKEND_FILENAME_MAX_LENGTH + 1) p u s).2.length
            ≤ TRUSTED_STORAGE_SETTINGS_BACKEND_FILENAME_MAX_LENGTH) := by
  by_cases h : p.length + 16 + s.length ≤ 32
  · rw [create_filename_fits p s u h]
    simp only [derived_key_length, TRUSTED_STORAGE_SETTINGS_BACKEND_FILENAME_MAX_LENGTH]
    simp [h]
  · have hf := create_filename_too_long p s u (by omega)
    simp [hf, h]

/-- Witness of C13: a 16-character prefix with an empty suffix gives a key of exactly 32
characters. -/
theorem create_filename_succeeds_iff_witness :
    (create_filename (TRUSTED_STORAGE_SETTINGS_BACKEND_FILENAME_MAX_LENGTH + 1)
        "trusted_storage/".data 0xffffffffffffffff "".data).1 = PSA_SUCCESS
      ∧ (create_filename (TRUSTED_STORAGE_SETTINGS_BACKEND_FILENAME_MAX_LENGTH + 1)
          "trusted_storage/".data 0xffffffffffffffff "".data).2.length
          = "trusted_storage/".data.length + 16 + "".data.length
      ∧ (create_filename (TRUSTED_STORAGE_SETTINGS_BACKEND_FILENAME_MAX_LENGTH + 1)
          "trusted_storage/".data 0xffffffffffffffff "".data).2.length
          ≤ TRUSTED_STORAGE_SETTINGS_BACKEND_FILENAME_MAX_LENGTH :=
  ⟨(create_filename_succeeds_iff "trusted_storage/".data "".data 0xffffffffffffffff).1.2
      (by decide),
   (create_filename_succeeds_iff "trusted_storage/".data "".data 0xffffffffffffffff).2
      (by decide)⟩


/-! ## C14: write then read over the map backend -/

/-- A valid `storage_get_object` whose load presents a record `value` of at least `size` bytes
once, through the read callback of that record, and returns a non-negative value: the status is
`PSA_SUCCESS` and the buffer starts with the first `size` bytes of the record. -/
theorem storage_get_object_record {σ : Type} (B : settings_backend σ) (st : σ) (u : Nat)
    (p s : List Char) (data value : List uint8_t) (size : Nat) (k : List Char) (rc : Int)
    (hsize : size ≠ 0) (hfit : p.length + 16 + s.length ≤ 32)
    (hload : B.load st (derived_key p u s)
      = load_run.invoke k value.length (record_read_cb value) (fun _ => load_run.ret rc))
    (hrc : 0 ≤ rc) (hlen : size ≤ value.length) :
    storage_get_object B st u (some p) (some s) (some data) size
      = (PSA_SUCCESS, some (value.take size ++ data.drop size)) := by
  rw [storage_get_object_valid B st u p s data size hsize hfit, hload]
  have h1 : ¬ rc < 0 := by omega
  have h2 : ¬ value.length < size := by omega
  have h3 : min size value.length = size := by omega
  simp [settings_load_subtree_direct, storage_settings_load_object, h1, h2, record_read_cb, h3]

/-- C14: over the map backend, for every UID, prefix and suffix within the key bound, every
non-empty `data` and every previous content of the store, `storage_set_object` returns
`PSA_SUCCESS` and a following `storage_get_object` of `len(data)` bytes at the same UID, prefix
and suffix returns `PSA_SUCCESS` with the output buffer equal to `data`. -/
theorem set_get_round_trip (st : List Char → Option (List uint8_t)) (u : Nat)
    (p s : List Char) (data out : List uint8_t) (hdata : data ≠ [])
    (hfit : p.length + 16 + s.length ≤ 32) (hout : out.length = data.length) :
    (storage_set_object map_backend st u (some p) (some s) (some data) data.length).1
        = PSA_SUCCESS
      ∧ storage_get_object map_backend
          (storage_set_object map_backend st u (some p) (some s) (some data) data.length).2
          u (some p) (some s) (some out) data.length
        = (PSA_SUCCESS, some data) := by
  have hsize : data.length ≠ 0 := by
    intro h
    exact hdata (List.length_eq_zero.mp h)
  rw [storage_set_object_valid map_backend st u p s data data.length hsize hfit]
  refine ⟨by simp [map_backend, error_to_psa_error], ?_⟩
  rw [storage_get_object_record map_backend _ u p s out data data.length [] 0 hsize hfit
    (by simp [map_backend]) (le_refl 0) (le_refl _)]
  simp [← hout]

/-- Witness of C14: the key already holds two other bytes when `[1, 2, 3]` is written. -/
theorem set_get_round_trip_witness :
    (storage_set_object map_backend
        (fun k => if k = "ts_0102030405060708_d".data then some [9, 9] else none)
        0x0102030405060708 (some "ts_".data) (some "_d".data) (some [1, 2, 3]) 3).1
        = PSA_SUCCESS
      ∧ storage_get_object map_backend
          (storage_set_object map_backend
            (fun k => if k = "ts_0102030405060708_d".data then some [9, 9] else none)
            0x0102030405060708 (some "ts_".data) (some "_d".data) (some [1, 2, 3]) 3).2
          0x0102030405060708 (some "ts_".data) (some "_d".data) (some [0, 0, 0]) 3
        = (PSA_SUCCESS, some [1, 2, 3]) :=
  set_get_round_trip (fun k => if k = "ts_0102030405060708_d".data then some [9, 9] else none)
    0x0102030405060708 "ts_".data "_d".data [1, 2, 3] [0, 0, 0] (by decide) (by decide) rfl

/-! ## C15: keys of different prefixes -/

/-- Two equal derived keys have equal prefixes, 64-bit UIDs and suffixes unless one prefix is a
proper prefix of the other. -/
theorem derived_key_inj_of_no_proper_prefix (p p' s s' : List Char) (u u' : Nat)
    (hu : u < 2 ^ 64) (hu' : u' < 2 ^ 64)
    (hp : ¬ (p <+: p' ∧ p ≠ p')) (hp' : ¬ (p' <+: p ∧ p' ≠ p))
    (h : derived_key p u s = derived_key p' u' s') : p = p' ∧ u = u' ∧ s = s' := by
  have hpp : p = p' := by
    have h2 := h
    simp only [derived_key, List.append_assoc] at h2
    rcases List.append_eq_append_iff.mp h2 with ⟨t, ht, _⟩ | ⟨t, ht, _⟩
    · by_contra hne
      exact hp ⟨⟨t, ht.symm⟩, hne⟩
    · by_contra hne
      exact hp' ⟨⟨t, ht.symm⟩, fun e => hne e.symm⟩
  subst hpp
  exact ⟨rfl, derived_key_inj p s s' u u' hu hu' h⟩

/-- C15, as the code behaves: for all prefixes `p`, `p'` neither of which is a proper prefix of
the other, 64-bit UIDs `u`, `u'` and suffixes `s`, `s'` for which `create_filename` succeeds, if
`(p, u, s)` differs from `(p', u', s')` then the two written keys differ. -/
theorem key_injective_no_proper_prefix (n : Nat) (p p' s s' : List Char) (u u' : Nat)
    (hu : u < 2 ^ 64) (hu' : u' < 2 ^ 64)
    (hp : ¬ (p <+: p' ∧ p ≠ p')) (hp' : ¬ (p' <+: p ∧ p' ≠ p))
    (hok : (create_filename n p u s).1 = PSA_SUCCESS)
    (hok' : (create_filename n p' u' s').1 = PSA_SUCCESS)
    (hne : (p, u, s) ≠ (p', u', s')) :
    (create_filename n p u s).2 ≠ (create_filename n p' u' s').2 := by
  intro hkey
  rw [create_filename_eq] at hok hkey
  rw [create_filename_eq] at hok' hkey
  split_ifs at hok hok' hkey with h1 h2
  obtain ⟨hpp, huu, hss⟩ :=
    derived_key_inj_of_no_proper_prefix p p' s s' u u' hu hu' hp hp' hkey
  exact hne (by rw [hpp, huu, hss])

/-- Witness of the amended C15: the prefixes `its/` and `ps/`, of different lengths, at one UID
and one suffix. -/
theorem key_injective_no_proper_prefix_witness :
    ¬ ("its/".data <+: "ps/".data ∧ "its/".data ≠ "ps/".data)
      ∧ ¬ ("ps/".data <+: "its/".data ∧ "ps/".data ≠ "its/".data)
      ∧ (create_filename 33 "its/".data 0x0102030405060708 "_d".data).1 = PSA_SUCCESS
      ∧ (create_filename 33 "ps/".data 0x0102030405060708 "_d".data).1 = PSA_SUCCESS
      ∧ (create_filename 33 "its/".data 0x0102030405060708 "_d".data).2
        ≠ (create_filename 33 "ps/".data 0x0102030405060708 "_d".data).2 :=
  ⟨by decide, by decide, by decide, by decide,
    key_injective_no_proper_prefix 33 "its/".data "ps/".data "_d".data "_d".data
      0x0102030405060708 0x0102030405060708 (by decide) (by decide) (by decide) (by decide)
      (by decide) (by decide) (by decide)⟩

/-- Counterexample to C15 as stated: prefix `ns1` with an empty suffix and prefix `ns` with
suffix `1` differ, `create_filename` succeeds for both at UID `0x1111111111111111`, and both
keys are `ns11111111111111111`. -/
theorem key_collision_across_prefixes :
    (create_filename 33 "ns1".data 0x1111111111111111 "".data).1 = PSA_SUCCESS
      ∧ (create_filename 33 "ns".data 0x1111111111111111 "1".data).1 = PSA_SUCCESS
      ∧ ("ns1".data, 0x1111111111111111, "".data) ≠ ("ns".data, 0x1111111111111111, "1".data)
      ∧ (create_filename 33 "ns1".data 0x1111111111111111 "".data).2
          = (create_filename 33 "ns".data 0x1111111111111111 "1".data).2
      ∧ (create_filename 33 "ns1".data 0x1111111111111111 "".data).2
          = "ns11111111111111111".data := by
  decide

/-! ## C16: the order of the two halves of the UID -/

/-- C16, the code at a failing input: for UID `0x0102030405060708`, prefix `ts_` and suffix `_d`
the written key is `ts_0102030405060708_d`, the high 32 bits before the low 32 bits, and not
`ts_0506070801020304_d`, the layout with the low 32 bits first. -/
theorem key_layout_high_half_first :
    create_filename 33 "ts_".data 0x0102030405060708 "_d".data
        = (PSA_SUCCESS,
            "ts_".data ++ hex8 (0x0102030405060708 >>> 32)
              ++ hex8 (0x0102030405060708 &&& 0xffffffff) ++ "_d".data)
      ∧ (create_filename 33 "ts_".data 0x0102030405060708 "_d".data).2
          = "ts_0102030405060708_d".data
      ∧ "ts_".data ++ hex8 (0x0102030405060708 &&& 0xffffffff)
            ++ hex8 (0x0102030405060708 >>> 32) ++ "_d".data
          = "ts_0506070801020304_d".data
      ∧ (create_filename 33 "ts_".data 0x0102030405060708 "_d".data).2
          ≠ "ts_".data ++ hex8 (0x0102030405060708 &&& 0xffffffff)
            ++ hex8 (0x0102030405060708 >>> 32) ++ "_d".data := by
  decide


/-! ## C17: the statuses the operations return -/

theorem error_to_psa_error_range (e : Int) :
    error_to_psa_error e ∈ [PSA_SUCCESS, PSA_ERROR_INVALID_ARGUMENT, PSA_ERROR_DOES_NOT_EXIST,
      PSA_ERROR_DATA_CORRUPT, PSA_ERROR_STORAGE_FAILURE] := by
  unfold error_to_psa_error
  split_ifs <;> simp

theorem create_filename_status (n : Nat) (p s : List Char) (u : Nat) :
    (create_filename n p u s).1 = PSA_SUCCESS
      ∨ (create_filename n p u s).1 = PSA_ERROR_STORAGE_FAILURE := by
  rw [create_filename_eq]
  split_ifs
  · exact Or.inl rfl
  · exact Or.inr rfl

theorem storage_get_object_range {σ : Type} (B : settings_backend σ) (st : σ) (u : Nat)
    (pre suffix : Option (List Char)) (data : Option (List uint8_t)) (size : Nat) :
    (storage_get_object B st u pre suffix data size).1
      ∈ [PSA_SUCCESS, PSA_ERROR_INVALID_ARGUMENT, PSA_ERROR_DOES_NOT_EXIST,
        PSA_ERROR_DATA_CORRUPT, PSA_ERROR_STORAGE_FAILURE] := by
  cases data <;> cases pre <;> cases suffix <;> try (simp [storage_get_object]; done)
  rename_i d p s
  simp only [storage_get_object]
  split_ifs with h1 h2 h3 h4
  · simp
  · rcases create_filename_status 33 p s u with h | h
    · exact absurd h h2
    · simp only [TRUSTED_STORAGE_SETTINGS_BACKEND_FILENAME_MAX_LENGTH]
      rw [h]
      simp
  · exact error_to_psa_error_range _
  · exact error_to_psa_error_range _
  · simp

theorem storage_set_object_range {σ : Type} (B : settings_backend σ) (st : σ) (u : Nat)
    (pre suffix : Option (List Char)) (data : Option (List uint8_t)) (size : Nat) :
    (storage_set_object B st u pre suffix data size).1
      ∈ [PSA_SUCCESS, PSA_ERROR_INVALID_ARGUMENT, PSA_ERROR_DOES_NOT_EXIST,
        PSA_ERROR_DATA_CORRUPT, PSA_ERROR_STORAGE_FAILURE] := by
  cases data <;> cases pre <;> cases suffix <;> try (simp [storage_set_object]; done)
  rename_i d p s
  simp only [storage_set_object]
  split_ifs with h1 h2
  · simp
  · rcases create_filename_status 33 p s u with h | h
    · exact absurd h h2
    · simp only [TRUSTED_STORAGE_SETTINGS_BACKEND_FILENAME_MAX_LENGTH]
      rw [h]
      simp
  · exact error_to_psa_error_range _

theorem storage_remove_object_range {σ : Type} (B : settings_backend σ) (st : σ) (u : Nat)
    (pre suffix : Option (List Char)) :
    (storage_remove_object B st u pre suffix).1
      ∈ [PSA_SUCCESS, PSA_ERROR_INVALID_ARGUMENT, PSA_ERROR_DOES_NOT_EXIST,
        PSA_ERROR_DATA_CORRUPT, PSA_ERROR_STORAGE_FAILURE] := by
  cases pre <;> cases suffix <;> try (simp [storage_remove_object]; done)
  rename_i p s
  simp only [storage_remove_object]
  split_ifs with h2
  · rcases create_filename_status 33 p s u with h | h
    · exact absurd h h2
    · simp only [TRUSTED_STORAGE_SETTINGS_BACKEND_FILENAME_MAX_LENGTH]
      rw [h]
      simp
  · exact error_to_psa_error_range _

/-- C17: for every input and every backend, `storage_get_object`, `storage_set_object` and
`storage_remove_object` return one of `PSA_SUCCESS`, `PSA_ERROR_INVALID_ARGUMENT`,
`PSA_ERROR_DOES_NOT_EXIST`, `PSA_ERROR_DATA_CORRUPT` and `PSA_ERROR_STORAGE_FAILURE`; they never
return `PSA_ERROR_INSUFFICIENT_STORAGE` and never the initial value
`PSA_ERROR_CORRUPTION_DETECTED` of their status variable. -/
theorem status_range {σ : Type} (B : settings_backend σ) (st : σ) (u : Nat)
    (pre suffix : Option (List Char)) (data : Option (List uint8_t)) (size : Nat) :
    ((storage_get_object B st u pre suffix data size).1
          ∈ [PSA_SUCCESS, PSA_ERROR_INVALID_ARGUMENT, PSA_ERROR_DOES_NOT_EXIST,
            PSA_ERROR_DATA_CORRUPT, PSA_ERROR_STORAGE_FAILURE]
        ∧ (storage_get_object B st u pre suffix data size).1 ≠ PSA_ERROR_INSUFFICIENT_STORAGE
        ∧ (storage_get_object B st u pre suffix data size).1 ≠ PSA_ERROR_CORRUPTION_DETECTED)
      ∧ ((storage_set_object B st u pre suffix data size).1
          ∈ [PSA_SUCCESS, PSA_ERROR_INVALID_ARGUMENT, PSA_ERROR_DOES_NOT_EXIST,
            PSA_ERROR_DATA_CORRUPT, PSA_ERROR_STORAGE_FAILURE]
        ∧ (storage_set_object B st u pre suffix data size).1 ≠ PSA_ERROR_INSUFFICIENT_STORAGE
        ∧ (storage_set_object B st u pre suffix data size).1 ≠ PSA_ERROR_CORRUPTION_DETECTED)
      ∧ ((storage_remove_object B st u pre suffix).1
          ∈ [PSA_SUCCESS, PSA_ERROR_INVALID_ARGUMENT, PSA_ERROR_DOES_NOT_EXIST,
            PSA_ERROR_DATA_CORRUPT, PSA_ERROR_STORAGE_FAILURE]
        ∧ (storage_remove_object B st u pre suffix).1 ≠ PSA_ERROR_INSUFFICIENT_STORAGE
        ∧ (storage_remove_object B st u pre suffix).1 ≠ PSA_ERROR_CORRUPTION_DETECTED) := by
  have key : ∀ r : psa_status_t,
      r ∈ [PSA_SUCCESS, PSA_ERROR_INVALID_ARGUMENT, PSA_ERROR_DOES_NOT_EXIST,
        PSA_ERROR_DATA_CORRUPT, PSA_ERROR_STORAGE_FAILURE] →
      r ∈ [PSA_SUCCESS, PSA_ERROR_INVALID_ARGUMENT, PSA_ERROR_DOES_NOT_EXIST,
          PSA_ERROR_DATA_CORRUPT, PSA_ERROR_STORAGE_FAILURE]
        ∧ r ≠ PSA_ERROR_INSUFFICIENT_STORAGE ∧ r ≠ PSA_ERROR_CORRUPTION_DETECTED := by
    intro r h
    refine ⟨h, ?_, ?_⟩ <;>
    · rintro rfl
      simp at h
  exact ⟨key _ (storage_get_object_range B st u pre suffix data size),
    key _ (storage_set_object_range B st u pre suffix data size),
    key _ (storage_remove_object_range B st u pre suffix)⟩


/-! ## C18: when `storage_get_object` succeeds -/

theorem error_to_psa_error_ne_success (e : Int) (h : e < 0) :
    error_to_psa_error e ≠ PSA_SUCCESS := by
  have h0 : e ≠ 0 := by omega
  unfold error_to_psa_error
  rw [if_neg h0]
  split_ifs <;> simp

/-- The value `info.ret` is non-negative after a load exactly when the last invocation of the
callback called the read callback and that returned a non-negative value. -/
theorem event_ret_nonneg_iff (init : Int) (hinit : init < 0) (o : Option load_event) :
    0 ≤ event_ret init o ↔ ∃ e v, o = some e ∧ e.read = some v ∧ 0 ≤ v := by
  cases o with
  | none => simp [event_ret]; omega
  | some e =>
    obtain ⟨len, read⟩ := e
    cases read with
    | none => simp [event_ret, EINVAL]
    | some v => simp [event_ret]

/-- C18, as the code behaves: for every valid call of `storage_get_object`, with `ret` the value
the backend load returns: the call returns `PSA_SUCCESS` if and only if `ret` is non-negative and
the last invocation of the load callback had a stored length of at least `object_size` and its
read callback returned a non-negative value; a negative `ret` decides the status whatever the
callback recorded; and a read callback that reports fewer bytes than `object_size` still gives
`PSA_SUCCESS`. -/
theorem get_success_iff {σ : Type} (B : settings_backend σ) (st : σ) (u : Nat)
    (p s : List Char) (data : List uint8_t) (size : Nat) (hsize : size ≠ 0)
    (hfit : p.length + 16 + s.length ≤ 32) :
    ((storage_get_object B st u (some p) (some s) (some data) size).1 = PSA_SUCCESS ↔
        0 ≤ (settings_load_subtree_direct storage_settings_load_object
              (B.load st (derived_key p u s))
              { data := data, size := size, ret := -ENOENT }).1
          ∧ ∃ e v, (load_events (B.load st (derived_key p u s))
                { data := data, size := size, ret := -ENOENT }).getLast? = some e
              ∧ size ≤ e.len ∧ e.read = some v ∧ 0 ≤ v)
      ∧ ((settings_load_subtree_direct storage_settings_load_object
              (B.load st (derived_key p u s))
              { data := data, size := size, ret := -ENOENT }).1 < 0 →
          (storage_get_object B st u (some p) (some s) (some data) size).1
            = error_to_psa_error
                (settings_load_subtree_direct storage_settings_load_object
                  (B.load st (derived_key p u s))
                  { data := data, size := size, ret := -ENOENT }).1
          ∧ (storage_get_object B st u (some p) (some s) (some data) size).1 ≠ PSA_SUCCESS)
      ∧ (∀ e v, 0 ≤ (settings_load_subtree_direct storage_settings_load_object
              (B.load st (derived_key p u s))
              { data := data, size := size, ret := -ENOENT }).1 →
          (load_events (B.load st (derived_key p u s))
              { data := data, size := size, ret := -ENOENT }).getLast? = some e →
          e.read = some v → 0 ≤ v → v < size →
          (storage_get_object B st u (some p) (some s) (some data) size).1 = PSA_SUCCESS) := by
  have hret := load_ret_eq_event_ret (B.load st (derived_key p u s))
    { data := data, size := size, ret := -ENOENT }
  have hev := event_ret_nonneg_iff (-ENOENT) (by decide)
    (load_events (B.load st (derived_key p u s))
      { data := data, size := size, ret := -ENOENT }).getLast?
  have hstatus : (storage_get_object B st u (some p) (some s) (some data) size).1 = PSA_SUCCESS ↔
      0 ≤ (settings_load_subtree_direct storage_settings_load_object
            (B.load st (derived_key p u s))
            { data := data, size := size, ret := -ENOENT }).1
        ∧ 0 ≤ (settings_load_subtree_direct storage_settings_load_object
            (B.load st (derived_key p u s))
            { data := data, size := size, ret := -ENOENT }).2.ret := by
    rw [storage_get_object_valid B st u p s data size hsize hfit]
    dsimp only
    split_ifs with h1 h2
    · simp only [error_to_psa_error_ne_success _ h1, false_iff, not_and]
      intro h; omega
    · simp only [error_to_psa_error_ne_success _ h2, false_iff, not_and]
      intro _; omega
    · simp only [true_iff]
      constructor <;> omega
  refine ⟨?_, ?_, ?_⟩
  · rw [hstatus, hret, hev]
    constructor
    · rintro ⟨h1, e, v, he, hread, hv⟩
      refine ⟨h1, e, v, he, ?_, hread, hv⟩
      have hmem := List.mem_of_getLast?_eq_some he
      have hiff := load_events_read _ _ e hmem
      by_contra hlt
      have : e.read = none := hiff.mpr (by simpa using hlt)
      rw [this] at hread
      cases hread
    · rintro ⟨h1, e, v, he, _, hread, hv⟩
      exact ⟨h1, e, v, he, hread, hv⟩
  · intro hneg
    have hne : (storage_get_object B st u (some p) (some s) (some data) size).1
        ≠ PSA_SUCCESS := by
      rw [Ne, hstatus]
      intro h; omega
    refine ⟨?_, hne⟩
    rw [storage_get_object_valid B st u p s data size hsize hfit]
    simp only [hneg, if_true]
  · intro e v h1 he hread hv _
    rw [hstatus, hret, hev]
    exact ⟨h1, e, v, he, hread, hv⟩

/-- Witness of the amended C18: the record has 6 bytes, 4 are requested, and the read callback reports a
single byte: the call returns `PSA_SUCCESS` with one byte written. -/
theorem get_success_iff_witness :
    storage_get_object
        (fixed_backend
          (load_run.invoke [] 6 (fun data _ => (1, [7] ++ data.drop 1))
            (fun _ => load_run.ret 0)) 0 0) ()
        0x0102030405060708 (some "ts_".data) (some "_d".data) (some [0, 0, 0, 0]) 4
      = (PSA_SUCCESS, some [7, 0, 0, 0]) :=
  Prod.ext
    ((get_success_iff
      (fixed_backend
        (load_run.invoke [] 6 (fun data _ => (1, [7] ++ data.drop 1))
          (fun _ => load_run.ret 0)) 0 0) ()
      0x0102030405060708 "ts_".data "_d".data [0, 0, 0, 0] 4 (by decide) (by decide)).2.2
      { len := 6, read := some 1 } 1 (by decide) rfl rfl (by decide) (by decide))
    (by decide)

/-- Counterexample to C18 as stated: the call is valid, the load invokes the callback with a
stored length of 4 (the read callback returns 4) and then with a stored length of 2, and returns
0. So the load returned a non-negative value and the callback was invoked with a stored length
of at least `object_size = 4` whose read returned a non-negative value, yet
`storage_get_object` returns `PSA_ERROR_STORAGE_FAILURE`: the second invocation overwrote
`info.ret` with `-EINVAL`. -/
theorem get_not_success_after_later_short_record :
    (settings_load_subtree_direct storage_settings_load_object
        (load_run.invoke [] 4 (record_read_cb [1, 2, 3, 4]) (fun _ =>
          load_run.invoke [] 2 (record_read_cb [5, 6]) (fun _ => load_run.ret 0)))
        { data := [0, 0, 0, 0], size := 4, ret := -ENOENT }).1 = 0
      ∧ load_events
          (load_run.invoke [] 4 (record_read_cb [1, 2, 3, 4]) (fun _ =>
            load_run.invoke [] 2 (record_read_cb [5, 6]) (fun _ => load_run.ret 0)))
          { data := [0, 0, 0, 0], size := 4, ret := -ENOENT }
        = [{ len := 4, read := some 4 }, { len := 2, read := none }]
      ∧ storage_get_object
          (fixed_backend
            (load_run.invoke [] 4 (record_read_cb [1, 2, 3, 4]) (fun _ =>
              load_run.invoke [] 2 (record_read_cb [5, 6]) (fun _ => load_run.ret 0))) 0 0) ()
          0x0102030405060708 (some "ts_".data) (some "_d".data) (some [0, 0, 0, 0]) 4
        = (PSA_ERROR_STORAGE_FAILURE, some [1, 2, 3, 4]) := by
  decide

end TrustedStorage
